import Mathlib

/-!
# Verification of the swisslos-crawler draw extractor

Shallow embedding of `src/src/lib.rs` (the library root, which the claims
cite as authority). The extractor `parse_draw_from_html` takes the parsed
HTML document — modelled as the lists of nodes matched by each of the four
structural selectors, in document order — together with the raw HTML text
(used in error payloads), the optional expected date, and the ambient
current date (`Utc::today()`, made an explicit parameter).

Rust `usize → u8` casts are modelled as `% 256`; `unwrap` on a failed
numeric parse or an out-of-bounds array write is modelled by the distinct
`ParseResult.panic` outcome.
-/

/-- A calendar date, modelling `chrono::NaiveDate` (year/month/day, no time
component). All dates produced by the code here have nonnegative years. -/
structure NaiveDate where
  year : Nat
  month : Nat
  day : Nat
deriving DecidableEq, Repr

/-- Leap-year rule of the proleptic Gregorian calendar used by chrono. -/
def isLeapYear (y : Nat) : Bool :=
  y % 4 == 0 && (y % 100 != 0 || y % 400 == 0)

/-- Number of days in a month of a given year. -/
def daysInMonth (y m : Nat) : Nat :=
  if m == 2 then (if isLeapYear y then 29 else 28)
  else if m == 4 || m == 6 || m == 9 || m == 11 then 30
  else 31

/-- Calendar validity, as enforced by `chrono::NaiveDate` construction. -/
def isValidDate (y m d : Nat) : Bool :=
  1 ≤ m && m ≤ 12 && 1 ≤ d && d ≤ daysInMonth y m

/-- Value of an ASCII digit character, `none` for non-digits. -/
def digitVal (c : Char) : Option Nat :=
  if c.isDigit then some (c.toNat - 48) else none

/-- Accumulate decimal digits left to right; `none` on a non-digit. -/
def parseDigitsAux : List Char → Nat → Option Nat
  | [], acc => some acc
  | c :: cs, acc =>
    match digitVal c with
    | some d => parseDigitsAux cs (acc * 10 + d)
    | none => none

/-- Parse a nonempty all-digit character list as a natural number. -/
def parseDigits : List Char → Option Nat
  | [] => none
  | cs => parseDigitsAux cs 0

/-- Rust `str::parse::<u8>()`: optional leading plus sign, then one or more
ASCII digits, value at most 255; anything else fails. -/
def parse_u8 (s : String) : Option Nat :=
  let cs :=
    match s.data with
    | '+' :: rest => rest
    | cs => cs
  match parseDigits cs with
  | some n => if n ≤ 255 then some n else none
  | none => none

/-- Parse a 1-or-2 digit (day/month) or up-to-4 digit (year) numeric field:
all characters digits, length within bounds. -/
def parseNumField (lo hi : Nat) (cs : List Char) : Option Nat :=
  if lo ≤ cs.length && cs.length ≤ hi && cs.all Char.isDigit then
    parseDigits cs
  else
    none

/-- Split a character list on a separator character. -/
def splitOnChar (sep : Char) : List Char → List (List Char)
  | [] => [[]]
  | c :: cs =>
    if c = sep then
      [] :: splitOnChar sep cs
    else
      match splitOnChar sep cs with
      | r :: rs => (c :: r) :: rs
      | [] => [[c]]

/-- `chrono::NaiveDate::parse_from_str(s, "%d.%m.%Y")`: day and month of one
or two digits, four-digit-or-fewer year, separated by dots, the whole string
consumed, and the result a valid calendar date. -/
def parseDMY (s : String) : Option NaiveDate :=
  match splitOnChar '.' s.data with
  | [ds, ms, ys] =>
    match parseNumField 1 2 ds, parseNumField 1 2 ms, parseNumField 1 4 ys with
    | some d, some m, some y =>
      if isValidDate y m d then some ⟨y, m, d⟩ else none
    | _, _, _ => none
  | _ => none

/-- A node matched by one of the structural selectors: its `value` attribute
(if any) and its text content (`inner_html`). -/
structure Element where
  valueAttr : Option String
  innerHtml : String
deriving DecidableEq, Repr

/-- The parsed HTML document, restricted to what the extractor observes: the
nodes matched by each selector, in document order.
`dateNodes` is `select(input#formattedFilterDate)`, `normalNodes`,
`luckyNodes`, `replayNodes` the number selectors of their variant class. -/
structure Document where
  dateNodes : List Element
  normalNodes : List Element
  luckyNodes : List Element
  replayNodes : List Element
deriving DecidableEq, Repr

/-- The `LottoDraw` record: draw date, the six main numbers in document
order (`[u8; 6]`, modelled as a length-6 list of naturals below 256), the
lucky number and the replay number. -/
structure LottoDraw where
  date : NaiveDate
  numbers : List Nat
  lucky : Nat
  replay : Nat
deriving DecidableEq, Repr

/-- `LottoDraw::default()`: today's date and all numeric fields zero. -/
def LottoDraw.default (today : NaiveDate) : LottoDraw :=
  ⟨today, [0, 0, 0, 0, 0, 0], 0, 0⟩

/-- The `Errors` enum of the crate. Payloads of the two variants carrying
opaque foreign errors (`reqwest::Error`, `chrono::ParseError`) are dropped. -/
inductive Errors where
  | ReqwestClientError
  | ParserError
  | SuppliedDateHasNoDraw
  | UnexpectedParsingError (msg : String) (html : String)
  | DateParsingError
deriving DecidableEq, Repr

/-- Outcome of `parse_draw_from_html`: a returned `Ok`, a returned `Err`,
or a process-terminating panic (a failed `unwrap` or an out-of-bounds
array write). -/
inductive ParseResult where
  | ok (draw : LottoDraw)
  | err (e : Errors)
  | panic
deriving DecidableEq, Repr

/-- Write `v` at index `idx` of `nums`; `none` when the index is out of
bounds (a Rust index-write panic). -/
def writeIdx : List Nat → Nat → Nat → Option (List Nat)
  | [], _, _ => none
  | _ :: xs, 0, v => some (v :: xs)
  | x :: xs, n + 1, v => (writeIdx xs n v).map (x :: ·)

/-- The `for (index, element) in ... .enumerate()` loop over the normal
number nodes: parse each node's text as `u8` and write it at its index.
`none` models a panic (failed parse `unwrap`, or index out of bounds). -/
def fillNumbers : List Element → Nat → List Nat → Option (List Nat)
  | [], _, nums => some nums
  | e :: es, idx, nums =>
    match parse_u8 e.innerHtml with
    | none => none
    | some v =>
      match writeIdx nums idx v with
      | none => none
      | some nums' => fillNumbers es (idx + 1) nums'

/-- Lines 163–216 of `lib.rs`: the normal-numbers, lucky-number and
replay-number sections, run once the date `d` of the record is settled.
Normal and lucky counts are truncated to `u8` (`% 256`) before the check
and in the message; the replay count is a `usize`, compared exactly. -/
def parseNumbersSection (doc : Document) (html : String) (d : NaiveDate) : ParseResult :=
  let normal_numbers_count := doc.normalNodes.length % 256
  if normal_numbers_count ≠ 6 then
    .err (.UnexpectedParsingError
      ("Expected 6 normal numbers in html response, found " ++ Nat.repr normal_numbers_count) html)
  else
    match fillNumbers doc.normalNodes 0 [0, 0, 0, 0, 0, 0] with
    | none => .panic
    | some nums =>
      let lucky_numbers_count := doc.luckyNodes.length % 256
      if lucky_numbers_count ≠ 1 then
        .err (.UnexpectedParsingError
          ("Expected 1 lucky number in html response, found " ++ Nat.repr lucky_numbers_count) html)
      else
        match doc.luckyNodes.getLast? with
        | none => .panic
        | some le =>
          match parse_u8 le.innerHtml with
          | none => .panic
          | some lv =>
            let replay_numbers_count := doc.replayNodes.length
            if replay_numbers_count ≠ 1 then
              .err (.UnexpectedParsingError
                ("Expected 1 replay number in html response, found " ++ Nat.repr replay_numbers_count) html)
            else
              match doc.replayNodes.getLast? with
              | none => .panic
              | some re =>
                match parse_u8 re.innerHtml with
                | none => .panic
                | some rv => .ok ⟨d, nums, lv, rv⟩

/-- `SwissLottoClient::parse_draw_from_html` (lines 130–217 of `lib.rs`).
The date-node count is truncated to `u8` before the check; the value
attribute of the last matching node, when present, is parsed as
`DD.MM.YYYY` and compared against the expected date; when absent the
default date `today` is kept and no expectation check is made. -/
def parse_draw_from_html (doc : Document) (html : String)
    (date : Option NaiveDate) (today : NaiveDate) : ParseResult :=
  let formatted_date_count := doc.dateNodes.length % 256
  if formatted_date_count ≠ 1 then
    .err (.UnexpectedParsingError
      ("Expected 1 date element in html response, found " ++ Nat.repr formatted_date_count) html)
  else
    match doc.dateNodes.getLast? with
    | none => .panic
    | some el =>
      match el.valueAttr with
      | none => parseNumbersSection doc html today
      | some date_value =>
        match parseDMY date_value with
        | none => .err .DateParsingError
        | some parsed =>
          match date with
          | none => parseNumbersSection doc html parsed
          | some check_date_value =>
            if parsed ≠ check_date_value then .err .SuppliedDateHasNoDraw
            else parseNumbersSection doc html parsed

/-- The results page URL. -/
def SWISS_LOTTO_DRAW_URL : String :=
  "https://www.swisslos.ch/en/swisslotto/information/winning-numbers/winning-numbers.html"

/-- HTTP method of an outbound request. -/
inductive Method where
  | get
  | post
deriving DecidableEq, Repr

/-- An outbound HTTP request as the client builds it: method, URL and form
fields. -/
structure Request where
  method : Method
  url : String
  form : List (String × String)
deriving DecidableEq, Repr

/-- Render `n` as `width` zero-padded decimal digit characters (the
zero-padded numeric conversions of chrono format strings). Correct for
`n < 10 ^ width`. -/
def padDigits (width n : Nat) : List Char :=
  match width with
  | 0 => []
  | w + 1 => padDigits w (n / 10) ++ [Char.ofNat (48 + n % 10)]

/-- `date.format("%d.%m.%Y")`: two-digit day and month, four-digit year. -/
def format_dmy (d : NaiveDate) : String :=
  ⟨padDigits 2 d.day ++ '.' :: padDigits 2 d.month ++ '.' :: padDigits 4 d.year⟩

/-- The POST request built by `get_draw_of_date` (lines 98–112 of
`lib.rs`). -/
def get_draw_of_date_request (date today : NaiveDate) : Request :=
  ⟨.post, SWISS_LOTTO_DRAW_URL,
    [("formattedFilterDate", format_dmy date),
     ("filterDate", format_dmy date),
     ("currentDate", format_dmy today)]⟩

/-- The POST request built by `get_previous_draw` (lines 114–128 of
`lib.rs`). -/
def get_previous_draw_request (date today : NaiveDate) : Request :=
  ⟨.post, SWISS_LOTTO_DRAW_URL,
    [("formattedFilterDate", format_dmy date),
     ("filterDate", format_dmy date),
     ("currentDate", format_dmy today)]⟩

/-- The extraction step of `get_draw_of_date` applied to the response body:
it passes the requested date as the expectation. -/
def get_draw_of_date_extract (doc : Document) (html : String)
    (date today : NaiveDate) : ParseResult :=
  parse_draw_from_html doc html (some date) today

/-- The extraction step of `get_previous_draw` applied to the response
body: it passes no expected date. -/
def get_previous_draw_extract (doc : Document) (html : String)
    (_date today : NaiveDate) : ParseResult :=
  parse_draw_from_html doc html none today

/-! ## Fixtures and helper lemmas -/

/-- A text-only node (no `value` attribute), as the number nodes are. -/
def numEl (s : String) : Element := ⟨none, s⟩

/-- Six well-formed main-number nodes. -/
def goodNormals : List Element :=
  [numEl "1", numEl "2", numEl "3", numEl "4", numEl "5", numEl "6"]

/-- A well-formed lucky-number node. -/
def goodLucky : Element := numEl "7"

/-- A well-formed replay-number node. -/
def goodReplay : Element := numEl "8"

/-- A date node with no `value` attribute. -/
def bareDateNode : Element := ⟨none, ""⟩

/-- A date node whose `value` attribute is `01.02.2023`. -/
def dateNode0102 : Element := ⟨some "01.02.2023", ""⟩

lemma exists_six {α : Type} (l : List α) (h : l.length = 6) :
    ∃ a b c d e f, l = [a, b, c, d, e, f] := by
  rcases l with _ | ⟨a, l⟩
  · simp at h
  rcases l with _ | ⟨b, l⟩
  · simp at h
  rcases l with _ | ⟨c, l⟩
  · simp at h
  rcases l with _ | ⟨d, l⟩
  · simp at h
  rcases l with _ | ⟨e, l⟩
  · simp at h
  rcases l with _ | ⟨f, l⟩
  · simp at h
  rcases l with _ | ⟨g, l⟩
  · exact ⟨a, b, c, d, e, f, rfl⟩
  · simp at h

lemma exists_one {α : Type} (l : List α) (h : l.length = 1) :
    ∃ a, l = [a] := by
  rcases l with _ | ⟨a, l⟩
  · simp at h
  rcases l with _ | ⟨b, l⟩
  · exact ⟨a, rfl⟩
  · simp at h

lemma writeIdx_some_lt {nums : List Nat} {idx v : Nat} {l : List Nat}
    (h : writeIdx nums idx v = some l) : idx < nums.length := by
  induction nums generalizing idx l with
  | nil => simp [writeIdx] at h
  | cons x xs ih =>
    cases idx with
    | zero => simp
    | succ n =>
      simp only [writeIdx] at h
      rw [Option.map_eq_some'] at h
      obtain ⟨l', hl', rfl⟩ := h
      have := ih hl'
      simp only [List.length_cons]
      omega

lemma writeIdx_some_length {nums : List Nat} {idx v : Nat} {l : List Nat}
    (h : writeIdx nums idx v = some l) : l.length = nums.length := by
  induction nums generalizing idx l with
  | nil => simp [writeIdx] at h
  | cons x xs ih =>
    cases idx with
    | zero =>
      simp only [writeIdx, Option.some.injEq] at h
      subst h
      simp
    | succ n =>
      simp only [writeIdx] at h
      rw [Option.map_eq_some'] at h
      obtain ⟨l', hl', rfl⟩ := h
      simp [ih hl']

lemma fillNumbers_some_le {ns : List Element} {idx : Nat} {nums l : List Nat}
    (h : fillNumbers ns idx nums = some l) :
    ns = [] ∨ idx + ns.length ≤ nums.length := by
  induction ns generalizing idx nums with
  | nil => exact Or.inl rfl
  | cons e es ih =>
    right
    cases hp : parse_u8 e.innerHtml with
    | none => simp [fillNumbers, hp] at h
    | some v =>
      simp only [fillNumbers, hp] at h
      cases hw : writeIdx nums idx v with
      | none => simp [hw] at h
      | some nums' =>
        simp only [hw] at h
        have hlt : idx < nums.length := writeIdx_some_lt hw
        have hlen : nums'.length = nums.length := writeIdx_some_length hw
        rcases ih h with rfl | hle <;> simp only [List.length_cons, List.length_nil] <;> omega

lemma fillNumbers_none_of_bad {ns : List Element} (idx : Nat) (nums : List Nat)
    (h : ∃ e ∈ ns, parse_u8 e.innerHtml = none) :
    fillNumbers ns idx nums = none := by
  induction ns generalizing idx nums with
  | nil => simp at h
  | cons e es ih =>
    obtain ⟨x, hx, hbad⟩ := h
    rcases List.mem_cons.mp hx with rfl | hmem
    · simp [fillNumbers, hbad]
    · cases hp : parse_u8 e.innerHtml with
      | none => simp [fillNumbers, hp]
      | some v =>
        simp only [fillNumbers, hp]
        cases hw : writeIdx nums idx v with
        | none => simp
        | some nums' => simpa using ih (idx + 1) nums' ⟨x, hmem, hbad⟩

/-! ## C1 -/

/-- C1: for a document with exactly 1 filter-date input node whose `value`
attribute holds a well-formed `DD.MM.YYYY` date, exactly 6 normal-number
nodes, 1 lucky node and 1 replay node, all with numeric text,
`parse_draw_from_html` with no expected date returns `Ok` with the parsed
date, the main numbers in document order, the lucky and the replay number. -/
theorem c1_wellformed_extraction
    (el le re : Element) (v : String) (d : NaiveDate)
    (nn : List Element) (html : String) (today : NaiveDate) (lv rv : Nat)
    (hval : el.valueAttr = some v) (hdate : parseDMY v = some d)
    (hlen : nn.length = 6)
    (hnum : ∀ e ∈ nn, (parse_u8 e.innerHtml).isSome)
    (hl : parse_u8 le.innerHtml = some lv)
    (hr : parse_u8 re.innerHtml = some rv) :
    parse_draw_from_html ⟨[el], nn, [le], [re]⟩ html none today =
      .ok ⟨d, nn.map (fun e => (parse_u8 e.innerHtml).getD 0), lv, rv⟩ := by
  obtain ⟨a, b, c, d4, e5, f, rfl⟩ := exists_six nn hlen
  obtain ⟨va, ha⟩ := Option.isSome_iff_exists.mp (hnum a (by simp))
  obtain ⟨vb, hb⟩ := Option.isSome_iff_exists.mp (hnum b (by simp))
  obtain ⟨vc, hc⟩ := Option.isSome_iff_exists.mp (hnum c (by simp))
  obtain ⟨vd, hd⟩ := Option.isSome_iff_exists.mp (hnum d4 (by simp))
  obtain ⟨ve, he⟩ := Option.isSome_iff_exists.mp (hnum e5 (by simp))
  obtain ⟨vf, hf⟩ := Option.isSome_iff_exists.mp (hnum f (by simp))
  simp [parse_draw_from_html, parseNumbersSection, fillNumbers, writeIdx,
    hval, hdate, ha, hb, hc, hd, he, hf, hl, hr]

/-- Witness for C1 at a concrete fixture. -/
theorem c1_wellformed_extraction_witness :
    parse_draw_from_html ⟨[dateNode0102], goodNormals, [goodLucky], [goodReplay]⟩
        "page" none ⟨2024, 5, 5⟩ =
      .ok ⟨⟨2023, 2, 1⟩, [1, 2, 3, 4, 5, 6], 7, 8⟩ := by
  have h := c1_wellformed_extraction dateNode0102 goodLucky goodReplay
    "01.02.2023" ⟨2023, 2, 1⟩ goodNormals "page" ⟨2024, 5, 5⟩ 7 8
    rfl (by decide) (by decide) (by decide) (by decide) (by decide)
  simpa using h

lemma numbersSection_cases (doc : Document) (html : String) (d : NaiveDate) :
    (∃ nums lv rv, parseNumbersSection doc html d = .ok ⟨d, nums, lv, rv⟩) ∨
    parseNumbersSection doc html d = .panic ∨
    (∃ m, parseNumbersSection doc html d = .err (.UnexpectedParsingError m html)) := by
  simp only [parseNumbersSection]
  split
  · exact Or.inr (Or.inr ⟨_, rfl⟩)
  split
  · exact Or.inr (Or.inl rfl)
  split
  · exact Or.inr (Or.inr ⟨_, rfl⟩)
  split
  · exact Or.inr (Or.inl rfl)
  split
  · exact Or.inr (Or.inl rfl)
  split
  · exact Or.inr (Or.inr ⟨_, rfl⟩)
  split
  · exact Or.inr (Or.inl rfl)
  split
  · exact Or.inr (Or.inl rfl)
  · exact Or.inl ⟨_, _, _, rfl⟩

lemma numbersSection_ok_date {doc : Document} {html : String} {d : NaiveDate}
    {r : LottoDraw} (h : parseNumbersSection doc html d = .ok r) : r.date = d := by
  rcases numbersSection_cases doc html d with ⟨nums, lv, rv, hok⟩ | hp | ⟨m, he⟩
  · have h2 := hok.symm.trans h
    injection h2 with h3
    rw [← h3]
  · rw [hp] at h
    simp at h
  · rw [he] at h
    simp at h

lemma getLast?_singleton' {α : Type} (a : α) : ([a] : List α).getLast? = some a := rfl

lemma parse_valued_some {el : Element} {v : String} {dp : NaiveDate}
    (nn ln rn : List Element) (html : String) (check today : NaiveDate)
    (hval : el.valueAttr = some v) (hdate : parseDMY v = some dp) :
    parse_draw_from_html ⟨[el], nn, ln, rn⟩ html (some check) today =
      if dp ≠ check then .err .SuppliedDateHasNoDraw
      else parseNumbersSection ⟨[el], nn, ln, rn⟩ html dp := by
  simp [parse_draw_from_html, getLast?_singleton', hval, hdate]

lemma parse_valued_none {el : Element} {v : String} {dp : NaiveDate}
    (nn ln rn : List Element) (html : String) (today : NaiveDate)
    (hval : el.valueAttr = some v) (hdate : parseDMY v = some dp) :
    parse_draw_from_html ⟨[el], nn, ln, rn⟩ html none today =
      parseNumbersSection ⟨[el], nn, ln, rn⟩ html dp := by
  simp [parse_draw_from_html, getLast?_singleton', hval, hdate]

lemma parse_bare {el : Element}
    (nn ln rn : List Element) (html : String) (date : Option NaiveDate) (today : NaiveDate)
    (hval : el.valueAttr = none) :
    parse_draw_from_html ⟨[el], nn, ln, rn⟩ html date today =
      parseNumbersSection ⟨[el], nn, ln, rn⟩ html today := by
  simp [parse_draw_from_html, getLast?_singleton', hval]

/-! ## C2 -/

/-- C2 counterexample: a document whose single date node has no `value`
attribute bypasses the expected-date check entirely. With expected date
2023-02-02 and current date 2023-01-01 the call returns a record dated
2023-01-01, not the expected date and not `SuppliedDateHasNoDraw`. -/
theorem c2_counterexample :
    parse_draw_from_html ⟨[bareDateNode], goodNormals, [goodLucky], [goodReplay]⟩
        "page2" (some ⟨2023, 2, 2⟩) ⟨2023, 1, 1⟩ =
      .ok ⟨⟨2023, 1, 1⟩, [1, 2, 3, 4, 5, 6], 7, 8⟩ ∧
    (⟨2023, 1, 1⟩ : NaiveDate) ≠ ⟨2023, 2, 2⟩ := by
  decide

/-- C2 (amended): when the single date node carries a `value` attribute
that parses as a date, any returned record's date equals the supplied
expected date, and a differing document date fails with the distinct
`SuppliedDateHasNoDraw` signal; in particular, for a document whose date
node value is `01.02.2023`, expected date 2023-02-01 succeeds and expected
date 2023-02-02 fails with that signal. -/
theorem c2_expected_date_enforced
    (el le re : Element) (v : String) (dp expected : NaiveDate)
    (nn : List Element) (html : String) (today : NaiveDate)
    (hval : el.valueAttr = some v) (hdate : parseDMY v = some dp) :
    ((∀ r, parse_draw_from_html ⟨[el], nn, [le], [re]⟩ html (some expected) today = .ok r →
        r.date = expected) ∧
     (dp ≠ expected →
        parse_draw_from_html ⟨[el], nn, [le], [re]⟩ html (some expected) today =
          .err .SuppliedDateHasNoDraw)) ∧
    (parse_draw_from_html ⟨[dateNode0102], goodNormals, [goodLucky], [goodReplay]⟩
        "p" (some ⟨2023, 2, 1⟩) ⟨2024, 5, 5⟩ =
      .ok ⟨⟨2023, 2, 1⟩, [1, 2, 3, 4, 5, 6], 7, 8⟩ ∧
     parse_draw_from_html ⟨[dateNode0102], goodNormals, [goodLucky], [goodReplay]⟩
        "p" (some ⟨2023, 2, 2⟩) ⟨2024, 5, 5⟩ =
      .err .SuppliedDateHasNoDraw) := by
  refine ⟨⟨?_, ?_⟩, by decide, by decide⟩
  · intro r hr
    rw [parse_valued_some nn [le] [re] html expected today hval hdate] at hr
    by_cases hdp : dp = expected
    · subst hdp
      simp only [ne_eq, not_true_eq_false, if_false] at hr
      exact numbersSection_ok_date hr
    · rw [if_pos hdp] at hr
      simp at hr
  · intro hne
    rw [parse_valued_some nn [le] [re] html expected today hval hdate, if_pos hne]

/-- Witness for C2's amended theorem at a concrete fixture. -/
theorem c2_expected_date_enforced_witness :
    parse_draw_from_html ⟨[dateNode0102], goodNormals, [goodLucky], [goodReplay]⟩
        "w" (some ⟨2023, 2, 5⟩) ⟨2024, 1, 1⟩ = .err .SuppliedDateHasNoDraw :=
  (c2_expected_date_enforced dateNode0102 goodLucky goodReplay "01.02.2023"
    ⟨2023, 2, 1⟩ ⟨2023, 2, 5⟩ goodNormals "w" ⟨2024, 1, 1⟩ rfl (by decide)).1.2
    (by decide)

/-! ## C4 -/

/-- C4 counterexample: a document with no filter-date input node at all
fails with the structural-mismatch error; the absence of the node is not
tolerated. -/
theorem c4_counterexample :
    parse_draw_from_html ⟨[], goodNormals, [goodLucky], [goodReplay]⟩ "page4" none ⟨2023, 1, 1⟩ =
      .err (.UnexpectedParsingError "Expected 1 date element in html response, found 0" "page4") := by
  decide

/-- C4 (amended): for a document whose filter-date input node is present
exactly once but carries no `value` attribute (with well-formed number
fragments), extraction with no expected date succeeds with the date
defaulted to the current date. -/
theorem c4_missing_value_defaults_to_today
    (el le re : Element) (nn : List Element) (html : String) (today : NaiveDate) (lv rv : Nat)
    (hval : el.valueAttr = none)
    (hlen : nn.length = 6)
    (hnum : ∀ e ∈ nn, (parse_u8 e.innerHtml).isSome)
    (hl : parse_u8 le.innerHtml = some lv)
    (hr : parse_u8 re.innerHtml = some rv) :
    parse_draw_from_html ⟨[el], nn, [le], [re]⟩ html none today =
      .ok ⟨today, nn.map (fun e => (parse_u8 e.innerHtml).getD 0), lv, rv⟩ := by
  obtain ⟨a, b, c, d4, e5, f, rfl⟩ := exists_six nn hlen
  obtain ⟨va, ha⟩ := Option.isSome_iff_exists.mp (hnum a (by simp))
  obtain ⟨vb, hb⟩ := Option.isSome_iff_exists.mp (hnum b (by simp))
  obtain ⟨vc, hc⟩ := Option.isSome_iff_exists.mp (hnum c (by simp))
  obtain ⟨vd, hd⟩ := Option.isSome_iff_exists.mp (hnum d4 (by simp))
  obtain ⟨ve, he⟩ := Option.isSome_iff_exists.mp (hnum e5 (by simp))
  obtain ⟨vf, hf⟩ := Option.isSome_iff_exists.mp (hnum f (by simp))
  simp [parse_draw_from_html, parseNumbersSection, fillNumbers, writeIdx,
    hval, ha, hb, hc, hd, he, hf, hl, hr]

/-- Witness for C4's amended theorem. -/
theorem c4_missing_value_defaults_to_today_witness :
    parse_draw_from_html ⟨[bareDateNode], goodNormals, [goodLucky], [goodReplay]⟩
        "w4" none ⟨2024, 5, 5⟩ =
      .ok ⟨⟨2024, 5, 5⟩, [1, 2, 3, 4, 5, 6], 7, 8⟩ := by
  have h := c4_missing_value_defaults_to_today bareDateNode goodLucky goodReplay
    goodNormals "w4" ⟨2024, 5, 5⟩ 7 8 rfl (by decide) (by decide) (by decide) (by decide)
  simpa using h

/-! ## C9 -/

/-- C9: the date, normal and lucky selector-match counts are truncated to
8 bits before the comparison and in the reported message, while the replay
count is compared exactly; a normal-number count congruent to 6 mod 256
but greater than 6 passes the cardinality check and the write into the
6-element array panics. -/
theorem c9_count_truncation (html : String) (date : Option NaiveDate) (today : NaiveDate) :
    (∀ dn nn ln rn : List Element, dn.length % 256 ≠ 1 →
      parse_draw_from_html ⟨dn, nn, ln, rn⟩ html date today =
        .err (.UnexpectedParsingError
          ("Expected 1 date element in html response, found " ++ Nat.repr (dn.length % 256)) html)) ∧
    (∀ (el : Element) (nn ln rn : List Element), el.valueAttr = none → nn.length % 256 ≠ 6 →
      parse_draw_from_html ⟨[el], nn, ln, rn⟩ html date today =
        .err (.UnexpectedParsingError
          ("Expected 6 normal numbers in html response, found " ++ Nat.repr (nn.length % 256)) html)) ∧
    (∀ (el : Element) (ln rn : List Element), el.valueAttr = none → ln.length % 256 ≠ 1 →
      parse_draw_from_html ⟨[el], goodNormals, ln, rn⟩ html date today =
        .err (.UnexpectedParsingError
          ("Expected 1 lucky number in html response, found " ++ Nat.repr (ln.length % 256)) html)) ∧
    (∀ (el : Element) (rn : List Element), el.valueAttr = none → rn.length ≠ 1 →
      parse_draw_from_html ⟨[el], goodNormals, [goodLucky], rn⟩ html date today =
        .err (.UnexpectedParsingError
          ("Expected 1 replay number in html response, found " ++ Nat.repr rn.length) html)) ∧
    (∀ (el : Element) (nn ln rn : List Element), el.valueAttr = none →
      nn.length % 256 = 6 → 6 < nn.length →
      parse_draw_from_html ⟨[el], nn, ln, rn⟩ html date today = .panic) := by
  have hfill : fillNumbers goodNormals 0 [0, 0, 0, 0, 0, 0] = some [1, 2, 3, 4, 5, 6] := by
    decide
  have hlucky : parse_u8 goodLucky.innerHtml = some 7 := by decide
  have h6 : goodNormals.length % 256 = 6 := by decide
  refine ⟨?_, ?_, ?_, ?_, ?_⟩
  · intro dn nn ln rn h
    simp [parse_draw_from_html, h]
  · intro el nn ln rn hel h
    rw [parse_bare nn ln rn html date today hel]
    simp [parseNumbersSection, h]
  · intro el ln rn hel h
    rw [parse_bare goodNormals ln rn html date today hel]
    simp [parseNumbersSection, hfill, h6, h]
  · intro el rn hel h
    rw [parse_bare goodNormals [goodLucky] rn html date today hel]
    simp [parseNumbersSection, hfill, h6, hlucky, getLast?_singleton', h]
  · intro el nn ln rn hel h6 hgt
    rw [parse_bare nn ln rn html date today hel]
    have hfe : fillNumbers nn 0 [0, 0, 0, 0, 0, 0] = none := by
      cases hfill2 : fillNumbers nn 0 [0, 0, 0, 0, 0, 0] with
      | none => rfl
      | some l =>
        rcases fillNumbers_some_le hfill2 with rfl | hle
        · simp at hgt
        · simp at hle
          omega
    simp [parseNumbersSection, hfe, h6]

set_option maxRecDepth 8192 in
/-- Witness for C9 at concrete inputs: 257 date nodes report a count of 1
is expected but the message says 1; zero date nodes report 0; a 262-node
normal-number list passes the truncated check and panics; a 257-node
replay list is rejected with the exact count 257. -/
theorem c9_count_truncation_witness :
    (parse_draw_from_html ⟨[], goodNormals, [goodLucky], [goodReplay]⟩ "w9" none ⟨2024, 1, 1⟩ =
      .err (.UnexpectedParsingError "Expected 1 date element in html response, found 0" "w9")) ∧
    (parse_draw_from_html ⟨[bareDateNode], [], [goodLucky], [goodReplay]⟩ "w9" none ⟨2024, 1, 1⟩ =
      .err (.UnexpectedParsingError "Expected 6 normal numbers in html response, found 0" "w9")) ∧
    (parse_draw_from_html ⟨[bareDateNode], goodNormals, [], [goodReplay]⟩ "w9" none ⟨2024, 1, 1⟩ =
      .err (.UnexpectedParsingError "Expected 1 lucky number in html response, found 0" "w9")) ∧
    (parse_draw_from_html ⟨[bareDateNode], goodNormals, [goodLucky],
        List.replicate 257 goodReplay⟩ "w9" none ⟨2024, 1, 1⟩ =
      .err (.UnexpectedParsingError "Expected 1 replay number in html response, found 257" "w9")) ∧
    (parse_draw_from_html ⟨[bareDateNode], goodNormals ++ List.replicate 256 (numEl "9"),
        [goodLucky], [goodReplay]⟩ "w9" none ⟨2024, 1, 1⟩ = .panic) := by
  have h := c9_count_truncation "w9" none ⟨2024, 1, 1⟩
  refine ⟨?_, ?_, ?_, ?_, ?_⟩
  · exact h.1 [] goodNormals [goodLucky] [goodReplay] (by decide)
  · exact h.2.1 bareDateNode [] [goodLucky] [goodReplay] rfl (by decide)
  · exact h.2.2.1 bareDateNode [] [goodReplay] rfl (by decide)
  · exact h.2.2.2.1 bareDateNode (List.replicate 257 goodReplay) rfl (by simp)
  · exact h.2.2.2.2 bareDateNode (goodNormals ++ List.replicate 256 (numEl "9"))
      [goodLucky] [goodReplay] rfl (by simp [goodNormals]) (by simp [goodNormals])

/-! ## C3 -/

/-- Five well-formed main-number nodes. -/
def fiveNormals : List Element :=
  [numEl "1", numEl "2", numEl "3", numEl "4", numEl "5"]

/-- Seven well-formed main-number nodes. -/
def sevenNormals : List Element := goodNormals ++ [numEl "40"]

set_option maxRecDepth 8192 in
/-- C3 counterexample: a document with 257 filter-date input nodes — a
count other than the required 1 — does not fail with the structural
mismatch error: the count is truncated to 8 bits, 257 mod 256 = 1 passes
the check, and extraction returns `Ok`. -/
theorem c3_counterexample :
    (List.replicate 257 bareDateNode).length ≠ 1 ∧
    parse_draw_from_html ⟨List.replicate 257 bareDateNode, goodNormals, [goodLucky], [goodReplay]⟩
        "page3" none ⟨2023, 1, 1⟩ =
      .ok ⟨⟨2023, 1, 1⟩, [1, 2, 3, 4, 5, 6], 7, 8⟩ := by
  constructor
  · simp
  · decide

/-- C3 (amended): whenever a selector-match count reduced modulo 256
differs from the contractually required count (1 date, 6 normal, 1 lucky;
the replay count is compared without truncation), `parse_draw_from_html`
fails with `UnexpectedParsingError` carrying a message naming the expected
versus observed (truncated) count and the full input document text; in
particular 5 or 7 main-number nodes fail this way and are never silently
truncated or padded. -/
theorem c3_cardinality_enforced (html : String) (date : Option NaiveDate) (today : NaiveDate) :
    (∀ dn nn ln rn : List Element, dn.length < 256 → dn.length ≠ 1 →
      parse_draw_from_html ⟨dn, nn, ln, rn⟩ html date today =
        .err (.UnexpectedParsingError
          ("Expected 1 date element in html response, found " ++ Nat.repr dn.length) html)) ∧
    (∀ (el : Element) (nn ln rn : List Element), el.valueAttr = none →
      nn.length < 256 → nn.length ≠ 6 →
      parse_draw_from_html ⟨[el], nn, ln, rn⟩ html date today =
        .err (.UnexpectedParsingError
          ("Expected 6 normal numbers in html response, found " ++ Nat.repr nn.length) html)) ∧
    (∀ (el : Element) (ln rn : List Element), el.valueAttr = none →
      ln.length < 256 → ln.length ≠ 1 →
      parse_draw_from_html ⟨[el], goodNormals, ln, rn⟩ html date today =
        .err (.UnexpectedParsingError
          ("Expected 1 lucky number in html response, found " ++ Nat.repr ln.length) html)) ∧
    (∀ (el : Element) (rn : List Element), el.valueAttr = none → rn.length ≠ 1 →
      parse_draw_from_html ⟨[el], goodNormals, [goodLucky], rn⟩ html date today =
        .err (.UnexpectedParsingError
          ("Expected 1 replay number in html response, found " ++ Nat.repr rn.length) html)) ∧
    (parse_draw_from_html ⟨[bareDateNode], fiveNormals, [goodLucky], [goodReplay]⟩
        html date today =
      .err (.UnexpectedParsingError "Expected 6 normal numbers in html response, found 5" html)) ∧
    (parse_draw_from_html ⟨[bareDateNode], sevenNormals, [goodLucky], [goodReplay]⟩
        html date today =
      .err (.UnexpectedParsingError "Expected 6 normal numbers in html response, found 7" html)) := by
  have hfill : fillNumbers goodNormals 0 [0, 0, 0, 0, 0, 0] = some [1, 2, 3, 4, 5, 6] := by
    decide
  have hlucky : parse_u8 goodLucky.innerHtml = some 7 := by decide
  have h6 : goodNormals.length % 256 = 6 := by decide
  refine ⟨?_, ?_, ?_, ?_, ?_, ?_⟩
  · intro dn nn ln rn hlt h
    have hm : dn.length % 256 = dn.length := Nat.mod_eq_of_lt hlt
    simp [parse_draw_from_html, hm, h]
  · intro el nn ln rn hel hlt h
    have hm : nn.length % 256 = nn.length := Nat.mod_eq_of_lt hlt
    rw [parse_bare nn ln rn html date today hel]
    simp [parseNumbersSection, hm, h]
  · intro el ln rn hel hlt h
    have hm : ln.length % 256 = ln.length := Nat.mod_eq_of_lt hlt
    rw [parse_bare goodNormals ln rn html date today hel]
    simp [parseNumbersSection, hfill, h6, hm, h]
  · intro el rn hel h
    rw [parse_bare goodNormals [goodLucky] rn html date today hel]
    simp [parseNumbersSection, hfill, h6, hlucky, getLast?_singleton', h]
  · rw [parse_bare fiveNormals [goodLucky] [goodReplay] html date today rfl]
    simp [parseNumbersSection, fiveNormals]
    decide
  · rw [parse_bare sevenNormals [goodLucky] [goodReplay] html date today rfl]
    simp [parseNumbersSection, sevenNormals, goodNormals]
    decide

/-- Witness for C3's amended theorem at concrete inputs. -/
theorem c3_cardinality_enforced_witness :
    parse_draw_from_html ⟨[bareDateNode, bareDateNode], goodNormals, [goodLucky], [goodReplay]⟩
        "w3" none ⟨2024, 1, 1⟩ =
      .err (.UnexpectedParsingError "Expected 1 date element in html response, found 2" "w3") :=
  (c3_cardinality_enforced "w3" none ⟨2024, 1, 1⟩).1 [bareDateNode, bareDateNode]
    goodNormals [goodLucky] [goodReplay] (by decide) (by decide)

/-! ## C5 -/

/-- C5: for a document that passes all cardinality checks (and whose date
step succeeds) but in which some normal-number, lucky-number or
replay-number node has text that does not parse as a `u8`, extraction hits
a failed `unwrap` and terminates the process (panic), never returning a
recoverable error value. -/
theorem c5_nonnumeric_text_panics
    (el le re : Element) (nn : List Element) (html : String) (today : NaiveDate)
    (hdateOk : el.valueAttr = none ∨ ∃ v d, el.valueAttr = some v ∧ parseDMY v = some d)
    (hlen : nn.length = 6)
    (hbad : ¬((∀ e ∈ nn, (parse_u8 e.innerHtml).isSome) ∧
              (parse_u8 le.innerHtml).isSome ∧ (parse_u8 re.innerHtml).isSome)) :
    parse_draw_from_html ⟨[el], nn, [le], [re]⟩ html none today = .panic := by
  obtain ⟨d0, hred⟩ : ∃ d0, parse_draw_from_html ⟨[el], nn, [le], [re]⟩ html none today =
      parseNumbersSection ⟨[el], nn, [le], [re]⟩ html d0 := by
    rcases hdateOk with h | ⟨v, d, hv, hd⟩
    · exact ⟨today, parse_bare nn [le] [re] html none today h⟩
    · exact ⟨d, parse_valued_none nn [le] [re] html today hv hd⟩
  rw [hred]
  by_cases hall : ∀ e ∈ nn, (parse_u8 e.innerHtml).isSome
  · obtain ⟨a, b, c, d4, e5, f, rfl⟩ := exists_six nn hlen
    obtain ⟨va, ha⟩ := Option.isSome_iff_exists.mp (hall a (by simp))
    obtain ⟨vb, hb⟩ := Option.isSome_iff_exists.mp (hall b (by simp))
    obtain ⟨vc, hc⟩ := Option.isSome_iff_exists.mp (hall c (by simp))
    obtain ⟨vd, hd⟩ := Option.isSome_iff_exists.mp (hall d4 (by simp))
    obtain ⟨ve, he⟩ := Option.isSome_iff_exists.mp (hall e5 (by simp))
    obtain ⟨vf, hf⟩ := Option.isSome_iff_exists.mp (hall f (by simp))
    by_cases hlk : (parse_u8 le.innerHtml).isSome
    · have hre : parse_u8 re.innerHtml = none := by
        rcases hq : parse_u8 re.innerHtml with _ | v
        · rfl
        · exact absurd ⟨hall, hlk, by simp [hq]⟩ hbad
      obtain ⟨lv, hlv⟩ := Option.isSome_iff_exists.mp hlk
      simp [parseNumbersSection, fillNumbers, writeIdx, getLast?_singleton',
        ha, hb, hc, hd, he, hf, hlv, hre]
    · have hle2 : parse_u8 le.innerHtml = none := Option.not_isSome_iff_eq_none.mp hlk
      simp [parseNumbersSection, fillNumbers, writeIdx, getLast?_singleton',
        ha, hb, hc, hd, he, hf, hle2]
  · have hex : ∃ e ∈ nn, parse_u8 e.innerHtml = none := by
      push_neg at hall
      obtain ⟨e, he, hne⟩ := hall
      exact ⟨e, he, Option.not_isSome_iff_eq_none.mp hne⟩
    have hfe := fillNumbers_none_of_bad 0 [0, 0, 0, 0, 0, 0] hex
    simp [parseNumbersSection, hfe, hlen]

/-- Witness for C5: a document whose sixth main-number node holds
non-numeric text panics. -/
theorem c5_nonnumeric_text_panics_witness :
    parse_draw_from_html
        ⟨[bareDateNode], [numEl "1", numEl "2", numEl "3", numEl "4", numEl "5", numEl "x"],
         [goodLucky], [goodReplay]⟩ "w5" none ⟨2024, 1, 1⟩ = .panic :=
  c5_nonnumeric_text_panics bareDateNode goodLucky goodReplay
    [numEl "1", numEl "2", numEl "3", numEl "4", numEl "5", numEl "x"]
    "w5" ⟨2024, 1, 1⟩ (Or.inl rfl) (by decide) (by decide)

/-! ## C6 -/

/-- C6 counterexample: on a fixed (HTML document, expected date) input,
two invocations at different current dates return different results when
the date node carries no `value` attribute — the extractor is not a pure
function of the pair (HTML text, optional expected date) alone. -/
theorem c6_counterexample :
    parse_draw_from_html ⟨[bareDateNode], goodNormals, [goodLucky], [goodReplay]⟩
        "p6" none ⟨2023, 1, 1⟩ ≠
      parse_draw_from_html ⟨[bareDateNode], goodNormals, [goodLucky], [goodReplay]⟩
        "p6" none ⟨2023, 1, 2⟩ := by
  decide

/-- C6 (amended): the extractor is a pure function of (HTML text, optional
expected date, current date) — it is deterministic in those three inputs —
and whenever every date node carries a `value` attribute its result is
moreover independent of the current date, so any two invocations at any
times agree. -/
theorem c6_deterministic
    (doc : Document) (html : String) (date : Option NaiveDate) (t1 t2 : NaiveDate)
    (h : ∀ el ∈ doc.dateNodes, el.valueAttr ≠ none) :
    parse_draw_from_html doc html date t1 = parse_draw_from_html doc html date t2 := by
  by_cases h1 : doc.dateNodes.length % 256 ≠ 1
  · simp [parse_draw_from_html, h1]
  · cases hgl : doc.dateNodes.getLast? with
    | none => simp [parse_draw_from_html, hgl]
    | some el =>
      have hm : el ∈ doc.dateNodes := by
        obtain ⟨hne, heq⟩ := List.mem_getLast?_eq_getLast (Option.mem_def.mpr hgl)
        rw [heq]
        exact List.getLast_mem hne
      cases hva : el.valueAttr with
      | none => exact absurd hva (h el hm)
      | some v => simp [parse_draw_from_html, hgl, hva]

/-- Witness for C6's amended theorem at a concrete input. -/
theorem c6_deterministic_witness :
    parse_draw_from_html ⟨[dateNode0102], goodNormals, [goodLucky], [goodReplay]⟩
        "w6" none ⟨2023, 1, 1⟩ =
      parse_draw_from_html ⟨[dateNode0102], goodNormals, [goodLucky], [goodReplay]⟩
        "w6" none ⟨2023, 1, 2⟩ :=
  c6_deterministic ⟨[dateNode0102], goodNormals, [goodLucky], [goodReplay]⟩
    "w6" none ⟨2023, 1, 1⟩ ⟨2023, 1, 2⟩ (by decide)

/-! ## C7 -/

/-- C7: `get_previous_draw` issues the same POST payload as
`get_draw_of_date` (formattedFilterDate and filterDate set to the target
date, currentDate set to today, all formatted `DD.MM.YYYY`), but its
extraction step passes no expected date, while `get_draw_of_date`'s passes
the requested date. -/
theorem c7_previous_draw_same_post
    (date today : NaiveDate) (doc : Document) (html : String) :
    get_previous_draw_request date today = get_draw_of_date_request date today ∧
    get_previous_draw_request date today =
      ⟨.post, SWISS_LOTTO_DRAW_URL,
        [("formattedFilterDate", format_dmy date),
         ("filterDate", format_dmy date),
         ("currentDate", format_dmy today)]⟩ ∧
    get_previous_draw_extract doc html date today = parse_draw_from_html doc html none today ∧
    get_draw_of_date_extract doc html date today =
      parse_draw_from_html doc html (some date) today :=
  ⟨rfl, rfl, rfl, rfl⟩

/-! ## C10 -/

lemma parse_classified (doc : Document) (html : String)
    (date : Option NaiveDate) (today : NaiveDate) :
    (∃ r, parse_draw_from_html doc html date today = .ok r) ∨
    parse_draw_from_html doc html date today = .panic ∨
    parse_draw_from_html doc html date today = .err .SuppliedDateHasNoDraw ∨
    parse_draw_from_html doc html date today = .err .DateParsingError ∨
    (∃ m, parse_draw_from_html doc html date today = .err (.UnexpectedParsingError m html)) := by
  by_cases h1 : doc.dateNodes.length % 256 ≠ 1
  · exact Or.inr (Or.inr (Or.inr (Or.inr
      ⟨"Expected 1 date element in html response, found " ++
        Nat.repr (doc.dateNodes.length % 256), by simp [parse_draw_from_html, h1]⟩)))
  rw [not_ne_iff] at h1
  cases hgl : doc.dateNodes.getLast? with
  | none => exact Or.inr (Or.inl (by simp [parse_draw_from_html, h1, hgl]))
  | some el =>
    cases hva : el.valueAttr with
    | none =>
      have hred : parse_draw_from_html doc html date today =
          parseNumbersSection doc html today := by
        simp [parse_draw_from_html, h1, hgl, hva]
      rw [hred]
      rcases numbersSection_cases doc html today with ⟨n, l, r2, h⟩ | h | ⟨m, h⟩
      · exact Or.inl ⟨_, h⟩
      · exact Or.inr (Or.inl h)
      · exact Or.inr (Or.inr (Or.inr (Or.inr ⟨m, h⟩)))
    | some v =>
      cases hdv : parseDMY v with
      | none =>
        exact Or.inr (Or.inr (Or.inr (Or.inl (by simp [parse_draw_from_html, h1, hgl, hva, hdv]))))
      | some parsed =>
        cases date with
        | none =>
          have hred : parse_draw_from_html doc html none today =
              parseNumbersSection doc html parsed := by
            simp [parse_draw_from_html, h1, hgl, hva, hdv]
          rw [hred]
          rcases numbersSection_cases doc html parsed with ⟨n, l, r2, h⟩ | h | ⟨m, h⟩
          · exact Or.inl ⟨_, h⟩
          · exact Or.inr (Or.inl h)
          · exact Or.inr (Or.inr (Or.inr (Or.inr ⟨m, h⟩)))
        | some check =>
          by_cases hne : parsed = check
          · have hred : parse_draw_from_html doc html (some check) today =
                parseNumbersSection doc html parsed := by
              simp [parse_draw_from_html, h1, hgl, hva, hdv, hne]
            rw [hred]
            rcases numbersSection_cases doc html parsed with ⟨n, l, r2, h⟩ | h | ⟨m, h⟩
            · exact Or.inl ⟨_, h⟩
            · exact Or.inr (Or.inl h)
            · exact Or.inr (Or.inr (Or.inr (Or.inr ⟨m, h⟩)))
          · exact Or.inr (Or.inr (Or.inl (by simp [parse_draw_from_html, h1, hgl, hva, hdv, hne])))

lemma parse_none_no_supplied (doc : Document) (html : String) (today : NaiveDate) :
    parse_draw_from_html doc html none today ≠ .err .SuppliedDateHasNoDraw := by
  by_cases h1 : doc.dateNodes.length % 256 ≠ 1
  · simp [parse_draw_from_html, h1]
  rw [not_ne_iff] at h1
  cases hgl : doc.dateNodes.getLast? with
  | none => simp [parse_draw_from_html, h1, hgl]
  | some el =>
    cases hva : el.valueAttr with
    | none =>
      have hred : parse_draw_from_html doc html none today =
          parseNumbersSection doc html today := by
        simp [parse_draw_from_html, h1, hgl, hva]
      rw [hred]
      rcases numbersSection_cases doc html today with ⟨n, l, r2, h⟩ | h | ⟨m, h⟩ <;> simp [h]
    | some v =>
      cases hdv : parseDMY v with
      | none => simp [parse_draw_from_html, h1, hgl, hva, hdv]
      | some parsed =>
        have hred : parse_draw_from_html doc html none today =
            parseNumbersSection doc html parsed := by
          simp [parse_draw_from_html, h1, hgl, hva, hdv]
        rw [hred]
        rcases numbersSection_cases doc html parsed with ⟨n, l, r2, h⟩ | h | ⟨m, h⟩ <;> simp [h]

/-- C10: `parse_draw_from_html` returns `Ok` or one of exactly three error
variants — `UnexpectedParsingError`, `DateParsingError` or
`SuppliedDateHasNoDraw` — or panics without returning; it never returns
`ReqwestClientError` or `ParserError`, and the extraction of
`get_previous_draw` (no expected date) never returns
`SuppliedDateHasNoDraw`. -/
theorem c10_error_classification
    (doc : Document) (html : String) (date : Option NaiveDate) (today : NaiveDate) :
    ((∃ r, parse_draw_from_html doc html date today = .ok r) ∨
     parse_draw_from_html doc html date today = .panic ∨
     parse_draw_from_html doc html date today = .err .SuppliedDateHasNoDraw ∨
     parse_draw_from_html doc html date today = .err .DateParsingError ∨
     (∃ m, parse_draw_from_html doc html date today = .err (.UnexpectedParsingError m html))) ∧
    parse_draw_from_html doc html date today ≠ .err .ReqwestClientError ∧
    parse_draw_from_html doc html date today ≠ .err .ParserError ∧
    (∀ d : NaiveDate, get_previous_draw_extract doc html d today ≠
      .err .SuppliedDateHasNoDraw) := by
  refine ⟨parse_classified doc html date today, ?_, ?_, ?_⟩
  · rcases parse_classified doc html date today with ⟨r, h⟩ | h | h | h | ⟨m, h⟩ <;> simp [h]
  · rcases parse_classified doc html date today with ⟨r, h⟩ | h | h | h | ⟨m, h⟩ <;> simp [h]
  · intro d
    exact parse_none_no_supplied doc html today

/-! ## C8 -/

/-- Modelled from the spec: the structured serialization format of
`DrawRecord` (section 6, "Record serialization"). The serde derive and the
chrono/serde instances are not part of the repository sources, so the
generic data model of the serialized form is reconstructed here: a struct
becomes a map of its field names, a `NaiveDate` an ISO-8601
`YYYY-MM-DD` string, a `[u8; 6]` a sequence, a `u8` a number. -/
inductive Json where
  | str (s : String)
  | num (n : Nat)
  | arr (elems : List Json)
  | obj (fields : List (String × Json))

/-- Modelled from the spec: chrono's serde serialization of a `NaiveDate`
as an ISO-8601 `YYYY-MM-DD` string. -/
def formatYMD (d : NaiveDate) : String :=
  ⟨padDigits 4 d.year ++ '-' :: (padDigits 2 d.month ++ '-' :: padDigits 2 d.day)⟩

/-- Combine two digit characters into a two-digit number. -/
def twoDigits (a b : Char) : Option Nat :=
  match digitVal a, digitVal b with
  | some x, some y => some (10 * x + y)
  | _, _ => none

/-- Combine four digit characters into a four-digit number. -/
def fourDigits (a b c d : Char) : Option Nat :=
  match digitVal a, digitVal b, digitVal c, digitVal d with
  | some x, some y, some z, some w => some (1000 * x + 100 * y + 10 * z + w)
  | _, _, _, _ => none

/-- Modelled from the spec: chrono's serde deserialization of a
`NaiveDate` from a `YYYY-MM-DD` string, validating the calendar date. -/
def parseYMD (s : String) : Option NaiveDate :=
  match s.data with
  | [y1, y2, y3, y4, s1, m1, m2, s2, d1, d2] =>
    match fourDigits y1 y2 y3 y4, twoDigits m1 m2, twoDigits d1 d2 with
    | some y, some m, some d =>
      if s1 = '-' && s2 = '-' && isValidDate y m d then some ⟨y, m, d⟩ else none
    | _, _, _ => none
  | _ => none

/-- Modelled from the spec: a JSON number deserialized as a `u8` (bounds
checked). -/
def jsonToU8 : Json → Option Nat
  | .num n => if n ≤ 255 then some n else none
  | _ => none

/-- Deserialize a list of JSON values as `u8` numbers. -/
def jsonListToU8s : List Json → Option (List Nat)
  | [] => some []
  | j :: js =>
    match jsonToU8 j, jsonListToU8s js with
    | some n, some ns => some (n :: ns)
    | _, _ => none

/-- Modelled from the spec: serde serialization of `LottoDraw` — a map of
its four fields in declaration order. -/
def serializeLottoDraw (r : LottoDraw) : Json :=
  .obj [("date", .str (formatYMD r.date)),
        ("numbers", .arr (r.numbers.map Json.num)),
        ("lucky", .num r.lucky),
        ("replay", .num r.replay)]

/-- Modelled from the spec: serde deserialization of `LottoDraw` — the
date string, a sequence of exactly 6 `u8` values, and two `u8` fields. -/
def deserializeLottoDraw : Json → Option LottoDraw
  | .obj [("date", .str s), ("numbers", .arr xs), ("lucky", jl), ("replay", jr)] =>
    match parseYMD s, (if xs.length = 6 then jsonListToU8s xs else none),
        jsonToU8 jl, jsonToU8 jr with
    | some d, some ns, some l, some r => some ⟨d, ns, l, r⟩
    | _, _, _, _ => none
  | _ => none

lemma digitVal_ofNat {k : Nat} (hk : k < 10) :
    digitVal (Char.ofNat (48 + k)) = some k := by
  interval_cases k <;> decide

lemma padDigits_two (n : Nat) :
    padDigits 2 n = [Char.ofNat (48 + n / 10 % 10), Char.ofNat (48 + n % 10)] := rfl

lemma padDigits_four (n : Nat) :
    padDigits 4 n = [Char.ofNat (48 + n / 10 / 10 / 10 % 10), Char.ofNat (48 + n / 10 / 10 % 10),
      Char.ofNat (48 + n / 10 % 10), Char.ofNat (48 + n % 10)] := rfl

lemma parseYMD_formatYMD (d : NaiveDate) (hy : d.year < 10000)
    (hv : isValidDate d.year d.month d.day = true) :
    parseYMD (formatYMD d) = some d := by
  obtain ⟨y, m, dd⟩ := d
  dsimp only at hy hv
  have hm : m < 100 := by
    simp only [isValidDate, Bool.and_eq_true, decide_eq_true_eq] at hv
    omega
  have hd : dd < 100 := by
    simp only [isValidDate, Bool.and_eq_true, decide_eq_true_eq] at hv
    have : daysInMonth y m ≤ 31 := by
      simp only [daysInMonth]
      split <;> split <;> omega
    omega
  simp only [formatYMD, parseYMD, padDigits_two, padDigits_four]
  simp only [List.cons_append, List.nil_append]
  simp only [fourDigits, twoDigits,
    digitVal_ofNat (Nat.mod_lt _ (by omega) : y / 10 / 10 / 10 % 10 < 10),
    digitVal_ofNat (Nat.mod_lt _ (by omega) : y / 10 / 10 % 10 < 10),
    digitVal_ofNat (Nat.mod_lt _ (by omega) : y / 10 % 10 < 10),
    digitVal_ofNat (Nat.mod_lt _ (by omega) : y % 10 < 10),
    digitVal_ofNat (Nat.mod_lt _ (by omega) : m / 10 % 10 < 10),
    digitVal_ofNat (Nat.mod_lt _ (by omega) : m % 10 < 10),
    digitVal_ofNat (Nat.mod_lt _ (by omega) : dd / 10 % 10 < 10),
    digitVal_ofNat (Nat.mod_lt _ (by omega) : dd % 10 < 10)]
  have hyeq : 1000 * (y / 10 / 10 / 10 % 10) + 100 * (y / 10 / 10 % 10) +
      10 * (y / 10 % 10) + y % 10 = y := by omega
  have hmeq : 10 * (m / 10 % 10) + m % 10 = m := by omega
  have hdeq : 10 * (dd / 10 % 10) + dd % 10 = dd := by omega
  simp [hyeq, hmeq, hdeq, hv]

lemma jsonListToU8s_map (ns : List Nat) (h : ∀ n ∈ ns, n ≤ 255) :
    jsonListToU8s (ns.map Json.num) = some ns := by
  induction ns with
  | nil => rfl
  | cons n ns ih =>
    have hn : n ≤ 255 := h n (by simp)
    simp only [List.map_cons, jsonListToU8s, jsonToU8, if_pos hn,
      ih (fun x hx => h x (by simp [hx]))]

/-- C8: serializing a `LottoDraw` and deserializing the result yields an
identical record — all six main numbers in their original order, the lucky
number, the replay number and the date are preserved — for every record
whose fields satisfy the representation invariants of the Rust types
(a valid calendar date with a four-digit year, six `u8` numbers, `u8`
lucky and replay). -/
theorem c8_serialization_roundtrip (r : LottoDraw)
    (hy : r.date.year < 10000)
    (hv : isValidDate r.date.year r.date.month r.date.day = true)
    (hn6 : r.numbers.length = 6)
    (hnb : ∀ n ∈ r.numbers, n ≤ 255)
    (hl : r.lucky ≤ 255) (hr : r.replay ≤ 255) :
    deserializeLottoDraw (serializeLottoDraw r) = some r := by
  obtain ⟨d, ns, lucky, replay⟩ := r
  simp only [serializeLottoDraw, deserializeLottoDraw]
  simp only at hy hv hn6 hnb hl hr
  rw [List.length_map, if_pos hn6]
  simp only [parseYMD_formatYMD d hy hv, jsonListToU8s_map ns hnb,
    jsonToU8, if_pos hl, if_pos hr]

/-- Witness for C8 at a concrete record. -/
theorem c8_serialization_roundtrip_witness :
    deserializeLottoDraw (serializeLottoDraw ⟨⟨2023, 2, 1⟩, [1, 2, 3, 4, 5, 6], 7, 8⟩) =
      some ⟨⟨2023, 2, 1⟩, [1, 2, 3, 4, 5, 6], 7, 8⟩ :=
  c8_serialization_roundtrip ⟨⟨2023, 2, 1⟩, [1, 2, 3, 4, 5, 6], 7, 8⟩
    (by decide) (by decide) (by decide) (by decide) (by decide) (by decide)
